import Mathlib

/-!
Shallow embedding of the session thinking-budget feature of gemini-cli:
the `SessionThinkingState` cell (packages/core/src/services/sessionThinkingState.ts),
the configuration façade through which the commands reach it, and the
`/think` and `/budget` slash commands
(packages/cli/src/ui/commands/thinkCommand.ts, budgetCommand.ts),
together with proofs of the specification's claims about them.

Machine numbers are modelled as `Int`; JavaScript's `parseInt(s, 10)` and
number-to-string conversion are modelled by executable functions below.
-/

namespace GeminiCLI

/-- Modelled from the spec: `THINKING_BUDGET_UNLIMITED` is imported from the
core package, which is not part of the excerpt; the spec fixes `-1` = unlimited. -/
def THINKING_BUDGET_UNLIMITED : Int := -1

/-- Modelled from the spec: `THINKING_BUDGET_OFF` is imported from the core
package; the spec fixes `0` = disabled. -/
def THINKING_BUDGET_OFF : Int := 0

/-- Modelled from the spec: `THINKING_BUDGET_LOW` is imported from the core
package; the `low` subcommand description says "~2048 tokens". -/
def THINKING_BUDGET_LOW : Int := 2048

/-- Modelled from the spec: `THINKING_BUDGET_MEDIUM` is imported from the core
package; the `medium` subcommand description says "~8192 tokens". -/
def THINKING_BUDGET_MEDIUM : Int := 8192

/-- Modelled from the spec: `THINKING_BUDGET_HIGH` is imported from the core
package; the `high` subcommand description says "~16384 tokens". -/
def THINKING_BUDGET_HIGH : Int := 16384

/-- Modelled from the spec: `DEFAULT_THINKING_MODE` is imported from the core
package; the `on` subcommand description says "default budget (8192 tokens)". -/
def DEFAULT_THINKING_MODE : Int := 8192

/-- The session-level holder of the optional thinking-budget override
(`sessionThinkingState.ts`). `none` models the TypeScript `null`. -/
structure SessionThinkingState where
  activeOverride : Option Int
  deriving DecidableEq

/-- `setOverride(budget)`: stores any optional integer, replacing the prior
value; the cell performs no validation. -/
def SessionThinkingState.setOverride (_s : SessionThinkingState)
    (budget : Option Int) : SessionThinkingState :=
  ⟨budget⟩

/-- `getActiveOverride()`: identity read of the stored value. -/
def SessionThinkingState.getActiveOverride (s : SessionThinkingState) : Option Int :=
  s.activeOverride

/-- `clearOverride()`: resets the stored value to absent. -/
def SessionThinkingState.clearOverride (_s : SessionThinkingState) : SessionThinkingState :=
  ⟨none⟩

/-- `hasOverride()`: whether the stored value is present. -/
def SessionThinkingState.hasOverride (s : SessionThinkingState) : Bool :=
  s.activeOverride.isSome

/-- Modelled from the spec: the configuration façade (spec §6) exposes
`setSessionThinkingBudget` / `getSessionThinkingBudget` over the session
state cell; the façade class itself is not part of the excerpt. -/
structure Config where
  sessionThinkingState : SessionThinkingState
  deriving DecidableEq

/-- Modelled from the spec: `setSessionThinkingBudget(value: integer | null)`
forwards the value to the session cell. -/
def Config.setSessionThinkingBudget (c : Config) (value : Option Int) : Config :=
  ⟨c.sessionThinkingState.setOverride value⟩

/-- Modelled from the spec: `getSessionThinkingBudget()` returns the stored
override, or `null` when using model defaults. -/
def Config.getSessionThinkingBudget (c : Config) : Option Int :=
  c.sessionThinkingState.getActiveOverride

/-- `context.services.config?.getSessionThinkingBudget()`: optional-chaining
read; a missing collaborator yields `undefined`, modelled as `none`. -/
def getBudgetViaConfig (config : Option Config) : Option Int :=
  match config with
  | none => none
  | some c => c.getSessionThinkingBudget

/-- `context.services.config?.setSessionThinkingBudget(value)`: optional-chaining
write; a missing collaborator makes the write a silent no-op. -/
def setBudgetViaConfig (config : Option Config) (value : Int) : Option Config :=
  match config with
  | none => none
  | some c => some (c.setSessionThinkingBudget (some value))

/-- The message type of a slash-command result: `'info' | 'error'`. -/
inductive MessageType where
  | info
  | error
  deriving DecidableEq

/-- A slash-command action result: `{ type: 'message', messageType, content }`
(the `type` field is the constant `'message'` and is omitted). -/
structure SlashCommandActionReturn where
  messageType : MessageType
  content : String
  deriving DecidableEq

/-- `createMessage(messageType, content)` from both command files. -/
def createMessage (messageType : MessageType) (content : String) :
    SlashCommandActionReturn :=
  ⟨messageType, content⟩

/-- The decimal digit character for `d` (`0`–`9`; arguments `≥ 9` yield `'9'`,
but the function is only used with `d = n % 10`). -/
def digitToChar : Nat → Char
  | 0 => '0'
  | 1 => '1'
  | 2 => '2'
  | 3 => '3'
  | 4 => '4'
  | 5 => '5'
  | 6 => '6'
  | 7 => '7'
  | 8 => '8'
  | _ => '9'

/-- Fuelled most-significant-first decimal digit expansion of a natural
number; with fuel `≥ n` it yields exactly the decimal digits of `n`
(empty for `0`). -/
def natDecimalAux : Nat → Nat → List Char
  | 0, _ => []
  | fuel + 1, n =>
    if n = 0 then [] else natDecimalAux fuel (n / 10) ++ [digitToChar (n % 10)]

/-- The canonical decimal digit string of a natural number. -/
def natDecimal (n : Nat) : List Char :=
  if n = 0 then ['0'] else natDecimalAux (n + 1) n

/-- Model of JavaScript number-to-string conversion for integral values:
a minus sign for negatives followed by the exact canonical decimal digits.
This coincides with `Number.prototype.toString` for every integer of
magnitude at most `2^53`: such doubles are exact, lie below the `1e21`
exponential-notation bound, and their shortest round-tripping decimal is the
exact decimal. -/
def jsIntToString (n : Int) : String :=
  if n < 0 then String.mk ('-' :: natDecimal n.natAbs) else String.mk (natDecimal n.natAbs)

/-- The JavaScript whitespace set used by `String.prototype.trim()` and
`parseInt` (ECMA-262 WhiteSpace ∪ LineTerminator): TAB, LF, VT, FF, CR,
space, NBSP, the Unicode space separators (Zs), the line and paragraph
separators, and the BOM. -/
def jsWhitespace (c : Char) : Bool :=
  c.toNat = 0x09 || c.toNat = 0x0A || c.toNat = 0x0B || c.toNat = 0x0C ||
  c.toNat = 0x0D || c.toNat = 0x20 || c.toNat = 0xA0 || c.toNat = 0x1680 ||
  (0x2000 ≤ c.toNat && c.toNat ≤ 0x200A) || c.toNat = 0x2028 ||
  c.toNat = 0x2029 || c.toNat = 0x202F || c.toNat = 0x205F ||
  c.toNat = 0x3000 || c.toNat = 0xFEFF

/-- Model of `String.prototype.trim()`: strip leading and trailing
JavaScript whitespace. -/
def jsTrim (s : String) : String :=
  String.mk (((s.toList.dropWhile jsWhitespace).reverse.dropWhile
    jsWhitespace).reverse)

/-- Model of `String.prototype.toLowerCase()` for the ASCII range. -/
def jsToLower (s : String) : String :=
  String.mk (s.toList.map Char.toLower)

/-- The optional leading sign consumed by `parseInt`. -/
def parseSign : List Char → Int × List Char
  | [] => (1, [])
  | c :: cs =>
    if c = '-' then (-1, cs) else if c = '+' then (1, cs) else (1, c :: cs)

/-- The numeric value of a list of decimal digit characters. -/
def digitsVal (cs : List Char) : Nat :=
  cs.foldl (fun a c => a * 10 + (c.toNat - 48)) 0

/-- Model of JavaScript `parseInt(s, 10)`: skip leading whitespace, consume an
optional sign, then the maximal prefix of decimal digits; `none` models `NaN`
(no digits), otherwise the signed exact mathematical value of the digits read.
JavaScript converts this mathematical value to the nearest IEEE-754 double,
which is the identity below `2^53`; the rounding applied beyond `2^53` is
modelled separately by `jsRoundToDouble`. -/
def parseInt10 (s : String) : Option Int :=
  let cs := s.toList.dropWhile jsWhitespace
  let p := parseSign cs
  let ds := p.2.takeWhile Char.isDigit
  if ds = [] then none else some (p.1 * (digitsVal ds : Int))

/-- The number of low-order bits an integer magnitude loses when rounded to a
53-bit significand (0 below `2^53`); the first argument is recursion fuel. -/
def dropBits : Nat → Nat → Nat
  | 0, _ => 0
  | fuel + 1, m => if m < 9007199254740992 then 0 else dropBits fuel (m / 2) + 1

/-- Modelled from ECMA-262: conversion of an exact integer magnitude to the
value of the nearest IEEE-754 double (round to nearest, ties to even), for
magnitudes below the double overflow threshold. Magnitudes below `2^53` are
returned unchanged. -/
def jsRoundNat (m : Nat) : Nat :=
  let k := dropBits m m
  if k = 0 then m
  else
    let p := 2 ^ k
    let q := m / p
    let r := m % p
    let half := p / 2
    (if half < r ∨ (r = half ∧ q % 2 = 1) then q + 1 else q) * p

/-- Modelled from ECMA-262: conversion of an exact integer to the value of the
nearest IEEE-754 double, by magnitude. -/
def jsRoundToDouble (n : Int) : Int :=
  if n < 0 then -(jsRoundNat n.natAbs : Int) else (jsRoundNat n.natAbs : Int)

/-- The agent-budget caveat appended to several `/think` confirmations. -/
def agentNote : String :=
  "\nNote: Agents like CodebaseInvestigator use their own thinking budgets for optimal performance."

/-- `/think on`: set the medium default and confirm. -/
def thinkOnAction (config : Option Config) : SlashCommandActionReturn × Option Config :=
  (createMessage .info
    ("Extended Thinking enabled (MEDIUM: " ++ jsIntToString DEFAULT_THINKING_MODE ++
      " tokens)" ++ agentNote),
   setBudgetViaConfig config DEFAULT_THINKING_MODE)

/-- `/think off`: set `0` and confirm. -/
def thinkOffAction (config : Option Config) : SlashCommandActionReturn × Option Config :=
  (createMessage .info "Extended Thinking disabled",
   setBudgetViaConfig config THINKING_BUDGET_OFF)

/-- `/think low`: set the low preset and confirm. -/
def thinkLowAction (config : Option Config) : SlashCommandActionReturn × Option Config :=
  (createMessage .info
    ("Extended Thinking set to LOW (" ++ jsIntToString THINKING_BUDGET_LOW ++
      " tokens)" ++ agentNote),
   setBudgetViaConfig config THINKING_BUDGET_LOW)

/-- `/think medium`: set the medium preset and confirm. -/
def thinkMediumAction (config : Option Config) : SlashCommandActionReturn × Option Config :=
  (createMessage .info
    ("Extended Thinking set to MEDIUM (" ++ jsIntToString THINKING_BUDGET_MEDIUM ++
      " tokens)" ++ agentNote),
   setBudgetViaConfig config THINKING_BUDGET_MEDIUM)

/-- `/think high`: set the high preset and confirm. -/
def thinkHighAction (config : Option Config) : SlashCommandActionReturn × Option Config :=
  (createMessage .info
    ("Extended Thinking set to HIGH (" ++ jsIntToString THINKING_BUDGET_HIGH ++
      " tokens)" ++ agentNote),
   setBudgetViaConfig config THINKING_BUDGET_HIGH)

/-- `/think unlimited` (aliases `max`, `extreme`): set `-1` and confirm. -/
def thinkUnlimitedAction (config : Option Config) : SlashCommandActionReturn × Option Config :=
  (createMessage .info ("Extended Thinking set to UNLIMITED" ++ agentNote),
   setBudgetViaConfig config THINKING_BUDGET_UNLIMITED)

/-- `getBudgetLabel(budget)` from thinkCommand.ts: the display tier of a budget. -/
def getBudgetLabel (budget : Int) : String :=
  if budget = THINKING_BUDGET_UNLIMITED then "UNLIMITED"
  else if budget = THINKING_BUDGET_OFF then "OFF"
  else if budget ≤ THINKING_BUDGET_LOW then "LOW"
  else if budget ≤ THINKING_BUDGET_MEDIUM then "MEDIUM"
  else if budget ≤ THINKING_BUDGET_HIGH then "HIGH"
  else "EXTREME"

/-- `/think status`: read-only report of the current configuration. -/
def thinkStatusAction (config : Option Config) : SlashCommandActionReturn × Option Config :=
  match getBudgetViaConfig config with
  | none =>
    (createMessage .info "Extended Thinking: Using model defaults (MEDIUM: 8192 tokens)",
     config)
  | some budget =>
    if budget = THINKING_BUDGET_UNLIMITED then
      (createMessage .info "Extended Thinking: UNLIMITED", config)
    else if budget = THINKING_BUDGET_OFF then
      (createMessage .info "Extended Thinking: DISABLED", config)
    else
      (createMessage .info
        ("Extended Thinking: " ++ jsIntToString budget ++ " tokens (" ++
          getBudgetLabel budget ++ ")"),
       config)

/-- The numeric branch of the `/think` default action: range-check
`numericBudget`, committing it only when both checks pass. -/
def thinkNumeric (config : Option Config) (numericBudget : Int) :
    SlashCommandActionReturn × Option Config :=
  if numericBudget < -1 then
    (createMessage .error
      "Budget must be -1 (unlimited), 0 (disabled), or a positive number", config)
  else if 32768 < numericBudget then
    (createMessage .error
      "Budget must be 32768 tokens or less (or -1 for unlimited)", config)
  else
    let config2 := setBudgetViaConfig config numericBudget
    if numericBudget = THINKING_BUDGET_UNLIMITED then
      (createMessage .info "Extended Thinking set to UNLIMITED", config2)
    else if numericBudget = THINKING_BUDGET_OFF then
      (createMessage .info "Extended Thinking disabled", config2)
    else
      (createMessage .info
        ("Extended Thinking set to " ++ jsIntToString numericBudget ++ " tokens (" ++
          getBudgetLabel numericBudget ++ ")"),
       config2)

/-- The toggle branch of the `/think` default action (empty argument):
absent or positive current budget turns thinking off; otherwise on. -/
def thinkToggle (config : Option Config) : SlashCommandActionReturn × Option Config :=
  match getBudgetViaConfig config with
  | none =>
    (createMessage .info "Extended Thinking disabled",
     setBudgetViaConfig config THINKING_BUDGET_OFF)
  | some current =>
    if THINKING_BUDGET_OFF < current then
      (createMessage .info "Extended Thinking disabled",
       setBudgetViaConfig config THINKING_BUDGET_OFF)
    else
      (createMessage .info
        ("Extended Thinking enabled (MEDIUM: " ++ jsIntToString DEFAULT_THINKING_MODE ++
          " tokens)"),
       setBudgetViaConfig config DEFAULT_THINKING_MODE)

/-- The usage error returned by the `/think` default action for a non-empty,
non-numeric argument. -/
def thinkUsageMsg : SlashCommandActionReturn :=
  createMessage .error "Usage: /think [on|off|low|medium|high|unlimited|<number>|status]"

/-- The non-numeric tail of the `/think` default action: toggle on an empty
argument, usage error otherwise. -/
def thinkRest (config : Option Config) (trimmedArgs : String) :
    SlashCommandActionReturn × Option Config :=
  if trimmedArgs = "" then thinkToggle config else (thinkUsageMsg, config)

/-- The `/think` default action on the already trimmed, lower-cased argument:
the numeric branch fires only when `parseInt` succeeds and the argument equals
the canonical string of the parsed value (`trimmedArgs === numericBudget.toString()`). -/
def thinkDispatch (config : Option Config) (trimmedArgs : String) :
    SlashCommandActionReturn × Option Config :=
  match parseInt10 trimmedArgs with
  | some numericBudget =>
    if trimmedArgs = jsIntToString numericBudget then thinkNumeric config numericBudget
    else thinkRest config trimmedArgs
  | none => thinkRest config trimmedArgs

/-- The `/think` default action (`thinkCommand.action`): trims and lower-cases
the argument, then dispatches. -/
def thinkAction (config : Option Config) (args : String) :
    SlashCommandActionReturn × Option Config :=
  thinkDispatch config (jsToLower (jsTrim args))

/-- The `/think` default action dispatch with `parseInt`'s mathematical value
converted to the nearest double, as JavaScript does beyond `2^53`: the parsed
number compared against its string form in the canonical check is the rounded
value. Exhibits the behavior of the source on decimal arguments that are not
exactly representable as doubles. -/
def thinkDispatchRounded (config : Option Config) (trimmedArgs : String) :
    SlashCommandActionReturn × Option Config :=
  match (parseInt10 trimmedArgs).map jsRoundToDouble with
  | some numericBudget =>
    if trimmedArgs = jsIntToString numericBudget then thinkNumeric config numericBudget
    else thinkRest config trimmedArgs
  | none => thinkRest config trimmedArgs

/-- The `/think` default action over the double-rounding parse model. -/
def thinkActionRounded (config : Option Config) (args : String) :
    SlashCommandActionReturn × Option Config :=
  thinkDispatchRounded config (jsToLower (jsTrim args))

/-- The status message built by `/budget` with an empty argument. -/
def budgetStatusMessage (current : Option Int) : String :=
  "Thinking Budget: " ++
    (match current with
     | none => "Default (" ++ jsIntToString DEFAULT_THINKING_MODE ++ " tokens)"
     | some cur =>
       if cur = THINKING_BUDGET_UNLIMITED then "Unlimited"
       else if cur = THINKING_BUDGET_OFF then "Disabled (0 tokens)"
       else jsIntToString cur ++ " tokens") ++
    "\n\nUse /stats to see token usage for this session."

/-- The `/budget` action on the already trimmed, lower-cased argument:
status on empty, keyword aliases, then numeric parse with range checks. -/
def budgetDispatch (config : Option Config) (trimmedArgs : String) :
    SlashCommandActionReturn × Option Config :=
  if trimmedArgs = "" then
    (createMessage .info (budgetStatusMessage (getBudgetViaConfig config)), config)
  else if trimmedArgs = "unlimited" ∨ trimmedArgs = "max" then
    (createMessage .info
      "Thinking budget set to unlimited\nNote: This may increase latency and API costs.",
     setBudgetViaConfig config THINKING_BUDGET_UNLIMITED)
  else if trimmedArgs = "off" ∨ trimmedArgs = "disabled" then
    (createMessage .info "Thinking budget disabled",
     setBudgetViaConfig config THINKING_BUDGET_OFF)
  else
    match parseInt10 trimmedArgs with
    | none =>
      (createMessage .error
        ("Budget must be a number, \"unlimited\", \"off\", or \"disabled\".\n" ++
          "Example: /budget 4096\nUse /think for preset levels (low/medium/high)."),
       config)
    | some numericBudget =>
      if numericBudget < -1 then
        (createMessage .error
          "Budget must be -1 (unlimited), 0 (disabled), or a positive number", config)
      else if 32768 < numericBudget then
        (createMessage .error
          "Budget must be 32768 tokens or less (or -1 for unlimited)", config)
      else
        let label :=
          if numericBudget = THINKING_BUDGET_UNLIMITED then "unlimited"
          else if numericBudget = THINKING_BUDGET_OFF then "disabled"
          else jsIntToString numericBudget ++ " tokens"
        (createMessage .info ("Thinking budget set to " ++ label),
         setBudgetViaConfig config numericBudget)

/-- The `/budget` action (`budgetCommand.action`): trims and lower-cases the
argument, then dispatches. -/
def budgetAction (config : Option Config) (args : String) :
    SlashCommandActionReturn × Option Config :=
  budgetDispatch config (jsToLower (jsTrim args))

/-- One user invocation of either command: a `/think` subcommand, the
`/think` default action with an argument string, or `/budget` with an
argument string. -/
inductive Invocation where
  | thinkOn
  | thinkOff
  | thinkLow
  | thinkMedium
  | thinkHigh
  | thinkUnlimited
  | thinkStatus
  | thinkDefault (args : String)
  | budgetCmd (args : String)

/-- Run one invocation against the current (optional) configuration. -/
def runInvocation (config : Option Config) :
    Invocation → SlashCommandActionReturn × Option Config
  | .thinkOn => thinkOnAction config
  | .thinkOff => thinkOffAction config
  | .thinkLow => thinkLowAction config
  | .thinkMedium => thinkMediumAction config
  | .thinkHigh => thinkHighAction config
  | .thinkUnlimited => thinkUnlimitedAction config
  | .thinkStatus => thinkStatusAction config
  | .thinkDefault args => thinkAction config args
  | .budgetCmd args => budgetAction config args

/-- Run a finite sequence of invocations, threading the configuration. -/
def runSession (config : Option Config) (l : List Invocation) : Option Config :=
  l.foldl (fun c i => (runInvocation c i).2) config

/-- The spec's invariant on a stored budget value: `-1`, `0`, or a positive
integer at most `32768`. -/
def validBudget (b : Int) : Prop :=
  b = -1 ∨ b = 0 ∨ (0 < b ∧ b ≤ 32768)

instance : DecidablePred validBudget := fun b => by
  unfold validBudget
  infer_instance

/-! ### Properties of the decimal print/parse model -/

theorem digitToChar_props (d : Nat) :
    (digitToChar d).isDigit = true ∧ jsWhitespace (digitToChar d) = false ∧
    digitToChar d ≠ '-' ∧ digitToChar d ≠ '+' ∧
    (digitToChar d).toLower = digitToChar d ∧
    48 ≤ (digitToChar d).toNat ∧ (digitToChar d).toNat ≤ 57 := by
  rcases d with _ | _ | _ | _ | _ | _ | _ | _ | _ | d
  · decide
  · decide
  · decide
  · decide
  · decide
  · decide
  · decide
  · decide
  · decide
  · exact (by decide :
      ('9' : Char).isDigit = true ∧ jsWhitespace '9' = false ∧
      ('9' : Char) ≠ '-' ∧ ('9' : Char) ≠ '+' ∧ ('9' : Char).toLower = '9' ∧
      48 ≤ ('9' : Char).toNat ∧ ('9' : Char).toNat ≤ 57)

theorem digitToChar_toNat (d : Nat) (h : d < 10) : (digitToChar d).toNat = 48 + d := by
  interval_cases d <;> rfl

theorem digitsVal_append_singleton (l : List Char) (c : Char) :
    digitsVal (l ++ [c]) = digitsVal l * 10 + (c.toNat - 48) := by
  unfold digitsVal
  rw [List.foldl_append]
  rfl

theorem natDecimalAux_val : ∀ fuel n, n ≤ fuel → digitsVal (natDecimalAux fuel n) = n := by
  intro fuel
  induction fuel with
  | zero =>
    intro n hn
    interval_cases n
    rfl
  | succ fuel ih =>
    intro n hn
    by_cases hz : n = 0
    · subst hz; rfl
    · have h10 : n / 10 ≤ fuel := by
        have := Nat.div_lt_self (Nat.pos_of_ne_zero hz) (by omega : 1 < 10)
        omega
      have hmod : n % 10 < 10 := Nat.mod_lt _ (by omega)
      simp only [natDecimalAux, if_neg hz]
      rw [digitsVal_append_singleton, ih _ h10, digitToChar_toNat _ hmod]
      omega

theorem natDecimal_val (n : Nat) : digitsVal (natDecimal n) = n := by
  unfold natDecimal
  by_cases hz : n = 0
  · subst hz; rfl
  · rw [if_neg hz]
    exact natDecimalAux_val (n + 1) n (by omega)

theorem natDecimalAux_mem :
    ∀ fuel n c, c ∈ natDecimalAux fuel n → ∃ d, c = digitToChar d := by
  intro fuel
  induction fuel with
  | zero => intro n c h; simp [natDecimalAux] at h
  | succ fuel ih =>
    intro n c h
    by_cases hz : n = 0
    · simp [natDecimalAux, hz] at h
    · simp only [natDecimalAux, if_neg hz, List.mem_append, List.mem_singleton] at h
      rcases h with h | h
      · exact ih _ _ h
      · exact ⟨n % 10, h⟩

theorem natDecimal_mem (n : Nat) (c : Char) (h : c ∈ natDecimal n) :
    ∃ d, c = digitToChar d := by
  unfold natDecimal at h
  by_cases hz : n = 0
  · rw [if_pos hz] at h
    simp at h
    exact ⟨0, h⟩
  · rw [if_neg hz] at h
    exact natDecimalAux_mem _ _ _ h

theorem natDecimal_ne_nil (n : Nat) : natDecimal n ≠ [] := by
  unfold natDecimal
  by_cases hz : n = 0
  · simp [hz]
  · rw [if_neg hz]
    simp [natDecimalAux, hz]

theorem takeWhile_of_forall {α : Type} {p : α → Bool} :
    ∀ (l : List α), (∀ c ∈ l, p c = true) → l.takeWhile p = l := by
  intro l h
  induction l with
  | nil => rfl
  | cons c cs ih =>
    simp only [List.takeWhile_cons, h c (List.mem_cons_self _ _), if_true, List.cons.injEq,
      true_and]
    exact ih fun x hx => h x (List.mem_cons_of_mem _ hx)

theorem dropWhile_of_forall {α : Type} {p : α → Bool} :
    ∀ (l : List α), (∀ c ∈ l, p c = false) → l.dropWhile p = l := by
  intro l h
  cases l with
  | nil => rfl
  | cons c cs => simp [List.dropWhile_cons, h c (List.mem_cons_self _ _)]

theorem map_of_forall_eq {α : Type} {f : α → α} :
    ∀ (l : List α), (∀ c ∈ l, f c = c) → l.map f = l := by
  intro l h
  induction l with
  | nil => rfl
  | cons c cs ih =>
    simp only [List.map_cons, h c (List.mem_cons_self _ _), List.cons.injEq, true_and]
    exact ih fun x hx => h x (List.mem_cons_of_mem _ hx)

theorem parseInt10_mk_natDecimal (m : Nat) :
    parseInt10 (String.mk (natDecimal m)) = some (m : Int) := by
  obtain ⟨c, cs, hL⟩ := List.exists_cons_of_ne_nil (natDecimal_ne_nil m)
  have hmem : ∀ x ∈ natDecimal m, ∃ d, x = digitToChar d := fun x hx => natDecimal_mem m x hx
  have hdigit : ∀ x ∈ natDecimal m, x.isDigit = true := by
    intro x hx
    obtain ⟨d, rfl⟩ := hmem x hx
    exact (digitToChar_props d).1
  have hhead : ∃ d, c = digitToChar d := hmem c (hL ▸ List.mem_cons_self _ _)
  obtain ⟨d, rfl⟩ := hhead
  unfold parseInt10
  have htl : (String.mk (natDecimal m)).toList = natDecimal m := rfl
  rw [htl, hL]
  simp only [List.dropWhile_cons, (digitToChar_props d).2.1, Bool.false_eq_true, if_false]
  rw [← hL]
  have hsign : parseSign (natDecimal m) = (1, natDecimal m) := by
    rw [hL]
    simp only [parseSign, if_neg (digitToChar_props d).2.2.1, if_neg (digitToChar_props d).2.2.2.1]
  rw [hsign]
  simp only
  rw [takeWhile_of_forall _ hdigit]
  rw [if_neg (natDecimal_ne_nil m)]
  rw [natDecimal_val]
  simp

theorem parseInt10_jsIntToString (n : Int) : parseInt10 (jsIntToString n) = some n := by
  unfold jsIntToString
  by_cases hneg : n < 0
  · rw [if_pos hneg]
    have hmem : ∀ x ∈ natDecimal n.natAbs, ∃ d, x = digitToChar d :=
      fun x hx => natDecimal_mem _ x hx
    have hdigit : ∀ x ∈ natDecimal n.natAbs, x.isDigit = true := by
      intro x hx
      obtain ⟨d, rfl⟩ := hmem x hx
      exact (digitToChar_props d).1
    unfold parseInt10
    have htl : (String.mk ('-' :: natDecimal n.natAbs)).toList = '-' :: natDecimal n.natAbs := rfl
    rw [htl]
    simp only [List.dropWhile_cons, (by decide : jsWhitespace '-' = false),
      Bool.false_eq_true, if_false]
    rw [show parseSign ('-' :: natDecimal n.natAbs) = (-1, natDecimal n.natAbs) by
      simp [parseSign]]
    simp only
    rw [takeWhile_of_forall _ hdigit, if_neg (natDecimal_ne_nil _), natDecimal_val]
    congr 1
    omega
  · rw [if_neg hneg]
    rw [parseInt10_mk_natDecimal]
    congr 1
    omega

theorem jsIntToString_chars (n : Int) (c : Char)
    (h : c ∈ (jsIntToString n).toList) :
    c = '-' ∨ ∃ d, c = digitToChar d := by
  unfold jsIntToString at h
  by_cases hneg : n < 0
  · rw [if_pos hneg] at h
    have : c ∈ '-' :: natDecimal n.natAbs := h
    rcases List.mem_cons.mp this with h | h
    · exact Or.inl h
    · exact Or.inr (natDecimal_mem _ _ h)
  · rw [if_neg hneg] at h
    exact Or.inr (natDecimal_mem _ _ h)

theorem jsIntToString_trim_lower (n : Int) :
    jsToLower (jsTrim (jsIntToString n)) = jsIntToString n := by
  have hchars : ∀ c ∈ (jsIntToString n).toList,
      jsWhitespace c = false ∧ c.toLower = c := by
    intro c hc
    rcases jsIntToString_chars n c hc with rfl | ⟨d, rfl⟩
    · exact ⟨by decide, rfl⟩
    · exact ⟨(digitToChar_props d).2.1, (digitToChar_props d).2.2.2.2.1⟩
  unfold jsTrim
  rw [dropWhile_of_forall _ fun c hc => (hchars c hc).1]
  rw [dropWhile_of_forall _ fun c hc => (hchars c (List.mem_reverse.mp hc)).1]
  rw [List.reverse_reverse]
  show jsToLower (String.mk (jsIntToString n).toList) = jsIntToString n
  unfold jsToLower
  rw [show (String.mk (jsIntToString n).toList).toList = (jsIntToString n).toList from rfl]
  rw [map_of_forall_eq _ fun c hc => (hchars c hc).2]
  cases hs : jsIntToString n
  rfl

theorem jsIntToString_ne_nil (n : Int) : (jsIntToString n).toList ≠ [] := by
  unfold jsIntToString
  by_cases hneg : n < 0
  · rw [if_pos hneg]
    exact fun h => List.cons_ne_nil _ _ h
  · rw [if_neg hneg]
    exact natDecimal_ne_nil _

theorem jsIntToString_ne_keywords (n : Int) :
    jsIntToString n ≠ "" ∧ jsIntToString n ≠ "unlimited" ∧ jsIntToString n ≠ "max" ∧
    jsIntToString n ≠ "off" ∧ jsIntToString n ≠ "disabled" := by
  have hletter : ∀ c : Char, c ∈ (jsIntToString n).toList → 97 ≤ c.toNat → False := by
    intro c hc h97
    rcases jsIntToString_chars n c hc with rfl | ⟨d, rfl⟩
    · simp at h97
    · have := (digitToChar_props d).2.2.2.2.2.2
      omega
  refine ⟨?_, ?_, ?_, ?_, ?_⟩
  · intro h
    exact jsIntToString_ne_nil n (congrArg String.toList h)
  · intro h
    exact hletter 'u' (by rw [h]; decide) (by decide)
  · intro h
    exact hletter 'm' (by rw [h]; decide) (by decide)
  · intro h
    exact hletter 'o' (by rw [h]; decide) (by decide)
  · intro h
    exact hletter 'd' (by rw [h]; decide) (by decide)

/-! ### Characterizations of the command actions -/

theorem thinkAction_decimal (config : Option Config) (n : Int) :
    thinkAction config (jsIntToString n) = thinkNumeric config n := by
  unfold thinkAction
  rw [jsIntToString_trim_lower]
  unfold thinkDispatch
  rw [parseInt10_jsIntToString]
  simp

theorem budgetAction_decimal (config : Option Config) (n : Int) :
    budgetAction config (jsIntToString n) =
      if n < -1 then
        (createMessage .error
          "Budget must be -1 (unlimited), 0 (disabled), or a positive number", config)
      else if 32768 < n then
        (createMessage .error
          "Budget must be 32768 tokens or less (or -1 for unlimited)", config)
      else
        (createMessage .info ("Thinking budget set to " ++
          (if n = THINKING_BUDGET_UNLIMITED then "unlimited"
           else if n = THINKING_BUDGET_OFF then "disabled"
           else jsIntToString n ++ " tokens")),
         setBudgetViaConfig config n) := by
  obtain ⟨h0, h1, h2, h3, h4⟩ := jsIntToString_ne_keywords n
  unfold budgetAction
  rw [jsIntToString_trim_lower]
  unfold budgetDispatch
  rw [if_neg h0, if_neg (not_or.mpr ⟨h1, h2⟩), if_neg (not_or.mpr ⟨h3, h4⟩),
    parseInt10_jsIntToString]

theorem thinkToggle_off (config : Option Config)
    (h : getBudgetViaConfig config = none ∨
      ∃ b, getBudgetViaConfig config = some b ∧ 0 < b) :
    thinkToggle config =
      (createMessage .info "Extended Thinking disabled",
       setBudgetViaConfig config THINKING_BUDGET_OFF) := by
  unfold thinkToggle
  rcases h with h | ⟨b, hb, hpos⟩
  · rw [h]
  · simp only [hb]
    rw [if_pos (show THINKING_BUDGET_OFF < b from hpos)]

theorem thinkToggle_on (config : Option Config) (b : Int)
    (hb : getBudgetViaConfig config = some b) (hnp : b ≤ 0) :
    thinkToggle config =
      (createMessage .info ("Extended Thinking enabled (MEDIUM: " ++
          jsIntToString DEFAULT_THINKING_MODE ++ " tokens)"),
       setBudgetViaConfig config DEFAULT_THINKING_MODE) := by
  unfold thinkToggle
  simp only [hb]
  rw [if_neg (show ¬THINKING_BUDGET_OFF < b from by
    simp only [THINKING_BUDGET_OFF]; omega)]

theorem thinkNumeric_writes (config : Option Config) (n : Int) :
    (thinkNumeric config n).2 = config ∨
      (-1 ≤ n ∧ n ≤ 32768 ∧ (thinkNumeric config n).2 = setBudgetViaConfig config n) := by
  unfold thinkNumeric
  split_ifs with h1 h2 <;>
    first
      | exact Or.inl rfl
      | exact Or.inr ⟨by omega, by omega, rfl⟩

theorem thinkToggle_writes (config : Option Config) :
    (thinkToggle config).2 = setBudgetViaConfig config THINKING_BUDGET_OFF ∨
    (thinkToggle config).2 = setBudgetViaConfig config DEFAULT_THINKING_MODE := by
  unfold thinkToggle
  split
  · exact Or.inl rfl
  · split_ifs
    · exact Or.inl rfl
    · exact Or.inr rfl

theorem thinkAction_writes (config : Option Config) (args : String) :
    (thinkAction config args).2 = config ∨
      ∃ v : Int, -1 ≤ v ∧ v ≤ 32768 ∧
        (thinkAction config args).2 = setBudgetViaConfig config v := by
  unfold thinkAction thinkDispatch thinkRest
  split
  · split_ifs with hcanon hempty
    · rcases thinkNumeric_writes config _ with h | ⟨h1, h2, h3⟩
      · exact Or.inl h
      · exact Or.inr ⟨_, h1, h2, h3⟩
    · rcases thinkToggle_writes config with h | h
      · exact Or.inr ⟨THINKING_BUDGET_OFF, by decide, by decide, h⟩
      · exact Or.inr ⟨DEFAULT_THINKING_MODE, by decide, by decide, h⟩
    · exact Or.inl rfl
  · split_ifs with hempty
    · rcases thinkToggle_writes config with h | h
      · exact Or.inr ⟨THINKING_BUDGET_OFF, by decide, by decide, h⟩
      · exact Or.inr ⟨DEFAULT_THINKING_MODE, by decide, by decide, h⟩
    · exact Or.inl rfl

theorem budgetAction_writes (config : Option Config) (args : String) :
    (budgetAction config args).2 = config ∨
      ∃ v : Int, -1 ≤ v ∧ v ≤ 32768 ∧
        (budgetAction config args).2 = setBudgetViaConfig config v := by
  unfold budgetAction budgetDispatch
  split_ifs with h1 h2 h3
  · exact Or.inl rfl
  · exact Or.inr ⟨THINKING_BUDGET_UNLIMITED, by decide, by decide, rfl⟩
  · exact Or.inr ⟨THINKING_BUDGET_OFF, by decide, by decide, rfl⟩
  · split
    · exact Or.inl rfl
    · split_ifs with h4 h5 <;>
        first
          | exact Or.inl rfl
          | exact Or.inr ⟨_, by omega, by omega, rfl⟩

theorem thinkToggle_msgType (config : Option Config) :
    (thinkToggle config).1.messageType = MessageType.info := by
  unfold thinkToggle
  split
  · rfl
  · split_ifs <;> rfl

theorem thinkNumeric_fst (c1 c2 : Option Config) (n : Int) :
    (thinkNumeric c1 n).1 = (thinkNumeric c2 n).1 := by
  unfold thinkNumeric
  split_ifs <;> rfl

theorem thinkAction_msgType_eq (c1 c2 : Option Config) (args : String) :
    (thinkAction c1 args).1.messageType = (thinkAction c2 args).1.messageType := by
  unfold thinkAction thinkDispatch thinkRest
  split
  · split_ifs
    · rw [thinkNumeric_fst c1 c2]
    · rw [thinkToggle_msgType, thinkToggle_msgType]
    · rfl
  · split_ifs
    · rw [thinkToggle_msgType, thinkToggle_msgType]
    · rfl

theorem budgetAction_msgType_eq (c1 c2 : Option Config) (args : String) :
    (budgetAction c1 args).1.messageType = (budgetAction c2 args).1.messageType := by
  unfold budgetAction budgetDispatch
  split_ifs
  · rfl
  · rfl
  · rfl
  · split
    · rfl
    · split_ifs <;> rfl

theorem thinkStatusAction_snd (config : Option Config) :
    (thinkStatusAction config).2 = config := by
  unfold thinkStatusAction
  split
  · rfl
  · split_ifs <;> rfl

theorem setBudgetViaConfig_get (config : Option Config) (v b : Int)
    (h : getBudgetViaConfig (setBudgetViaConfig config v) = some b) : b = v := by
  cases config
  · exact Option.noConfusion (show (none : Option Int) = some b from h)
  · exact (Option.some.inj (show some v = some b from h)).symm

theorem runInvocation_preserves (config : Option Config) (i : Invocation)
    (hinv : ∀ b, getBudgetViaConfig config = some b → validBudget b) :
    ∀ b, getBudgetViaConfig (runInvocation config i).2 = some b → validBudget b := by
  intro b hb
  cases i with
  | thinkOn =>
    rw [setBudgetViaConfig_get config DEFAULT_THINKING_MODE b hb]
    decide
  | thinkOff =>
    rw [setBudgetViaConfig_get config THINKING_BUDGET_OFF b hb]
    decide
  | thinkLow =>
    rw [setBudgetViaConfig_get config THINKING_BUDGET_LOW b hb]
    decide
  | thinkMedium =>
    rw [setBudgetViaConfig_get config THINKING_BUDGET_MEDIUM b hb]
    decide
  | thinkHigh =>
    rw [setBudgetViaConfig_get config THINKING_BUDGET_HIGH b hb]
    decide
  | thinkUnlimited =>
    rw [setBudgetViaConfig_get config THINKING_BUDGET_UNLIMITED b hb]
    decide
  | thinkStatus =>
    rw [show (runInvocation config Invocation.thinkStatus).2 = config from
      thinkStatusAction_snd config] at hb
    exact hinv b hb
  | thinkDefault args =>
    rcases thinkAction_writes config args with h | ⟨v, h1, h2, h3⟩
    · rw [show (runInvocation config (Invocation.thinkDefault args)).2 =
        (thinkAction config args).2 from rfl, h] at hb
      exact hinv b hb
    · rw [show (runInvocation config (Invocation.thinkDefault args)).2 =
        (thinkAction config args).2 from rfl, h3] at hb
      rw [setBudgetViaConfig_get config v b hb]
      unfold validBudget
      omega
  | budgetCmd args =>
    rcases budgetAction_writes config args with h | ⟨v, h1, h2, h3⟩
    · rw [show (runInvocation config (Invocation.budgetCmd args)).2 =
        (budgetAction config args).2 from rfl, h] at hb
      exact hinv b hb
    · rw [show (runInvocation config (Invocation.budgetCmd args)).2 =
        (budgetAction config args).2 from rfl, h3] at hb
      rw [setBudgetViaConfig_get config v b hb]
      unfold validBudget
      omega

theorem runSession_preserves (l : List Invocation) :
    ∀ config : Option Config,
      (∀ b, getBudgetViaConfig config = some b → validBudget b) →
      ∀ b, getBudgetViaConfig (runSession config l) = some b → validBudget b := by
  induction l with
  | nil => intro config h; exact h
  | cons i l ih =>
    intro config h
    exact ih _ (runInvocation_preserves config i h)

/-! ### The specification's claims -/

/-- C1: For every integer `n` in `[-1, 32768]`, invoking either the `/think`
default action or the `/budget` action with the decimal string of `n` as
argument, and then reading the session thinking budget through the
configuration façade, yields exactly `n`. -/
theorem think_budget_set_get_roundtrip (c : Config) (n : Int)
    (h1 : -1 ≤ n) (h2 : n ≤ 32768) :
    getBudgetViaConfig (thinkAction (some c) (jsIntToString n)).2 = some n ∧
    getBudgetViaConfig (budgetAction (some c) (jsIntToString n)).2 = some n := by
  constructor
  · rw [thinkAction_decimal]
    unfold thinkNumeric
    rw [if_neg (by omega), if_neg (by omega)]
    split_ifs <;> rfl
  · rw [budgetAction_decimal]
    rw [if_neg (by omega), if_neg (by omega)]
    rfl

theorem think_budget_set_get_roundtrip_witness :
    getBudgetViaConfig (thinkAction (some (Config.mk (SessionThinkingState.mk none)))
      (jsIntToString 4096)).2 = some 4096 ∧
    getBudgetViaConfig (budgetAction (some (Config.mk (SessionThinkingState.mk none)))
      (jsIntToString 4096)).2 = some 4096 :=
  think_budget_set_get_roundtrip (Config.mk (SessionThinkingState.mk none)) 4096
    (by decide) (by decide)

/-- C2 counterexample: at `n = 10^16 + 1`, which is greater than `32768` but
not exactly representable as a double, `parseInt` rounds the argument to
`10^16`, whose string form differs from the argument, so the `/think`
canonical-string check fails and the command returns the usage error — not
the upper-bound range message the claim requires for every `n > 32768`. -/
theorem out_of_range_huge_counterexample :
    (32768 : Int) < 10000000000000001 ∧
    jsRoundToDouble 10000000000000001 = 10000000000000000 ∧
    thinkActionRounded (some (Config.mk (SessionThinkingState.mk (some 5))))
        "10000000000000001" =
      (thinkUsageMsg, some (Config.mk (SessionThinkingState.mk (some 5)))) ∧
    thinkUsageMsg ≠
      createMessage .error
        "Budget must be 32768 tokens or less (or -1 for unlimited)" := by
  decide

/-- C2 (amended): For every integer `n` with `n < -1` or `n > 32768` that is
exactly representable as a double (`|n| ≤ 2^53`, so that the decimal string of
`n` survives `parseInt`/`toString` unchanged), giving the decimal string of `n`
as numeric argument to either the `/think` default action or the `/budget`
action returns an error-typed message (the under-range message for `n < -1`,
the upper-bound message for `n > 32768`) and the stored session budget is
unchanged. -/
theorem out_of_range_error_state_unchanged (config : Option Config) (n : Int)
    (h : n < -1 ∨ 32768 < n)
    (hlo : -9007199254740992 ≤ n) (hhi : n ≤ 9007199254740992) :
    (thinkAction config (jsIntToString n)).1 =
      createMessage .error
        (if n < -1 then
          "Budget must be -1 (unlimited), 0 (disabled), or a positive number"
         else "Budget must be 32768 tokens or less (or -1 for unlimited)") ∧
    (thinkAction config (jsIntToString n)).2 = config ∧
    (budgetAction config (jsIntToString n)).1 =
      createMessage .error
        (if n < -1 then
          "Budget must be -1 (unlimited), 0 (disabled), or a positive number"
         else "Budget must be 32768 tokens or less (or -1 for unlimited)") ∧
    (budgetAction config (jsIntToString n)).2 = config := by
  rw [thinkAction_decimal, budgetAction_decimal]
  unfold thinkNumeric
  split_ifs with h1 h2 <;>
    first
      | exact ⟨rfl, rfl, rfl, rfl⟩
      | omega

theorem out_of_range_error_state_unchanged_witness :
    (thinkAction (some (Config.mk (SessionThinkingState.mk (some 5))))
        (jsIntToString 40000)).1 =
      createMessage .error
        (if (40000 : Int) < -1 then
          "Budget must be -1 (unlimited), 0 (disabled), or a positive number"
         else "Budget must be 32768 tokens or less (or -1 for unlimited)") ∧
    (thinkAction (some (Config.mk (SessionThinkingState.mk (some 5))))
        (jsIntToString 40000)).2 =
      some (Config.mk (SessionThinkingState.mk (some 5))) ∧
    (budgetAction (some (Config.mk (SessionThinkingState.mk (some 5))))
        (jsIntToString 40000)).1 =
      createMessage .error
        (if (40000 : Int) < -1 then
          "Budget must be -1 (unlimited), 0 (disabled), or a positive number"
         else "Budget must be 32768 tokens or less (or -1 for unlimited)") ∧
    (budgetAction (some (Config.mk (SessionThinkingState.mk (some 5))))
        (jsIntToString 40000)).2 =
      some (Config.mk (SessionThinkingState.mk (some 5))) :=
  out_of_range_error_state_unchanged
    (some (Config.mk (SessionThinkingState.mk (some 5)))) 40000 (by decide)
    (by decide) (by decide)

/-- C3: For every non-empty argument string that is not a recognized keyword
and is not numeric (its trimmed, lower-cased form fails `parseInt`), each of
the two commands returns an error-typed message and causes no state mutation
of the session budget. -/
theorem unparseable_error_no_mutation (config : Option Config) (args : String)
    (hne : jsToLower (jsTrim args) ≠ "")
    (hu : jsToLower (jsTrim args) ≠ "unlimited")
    (hm : jsToLower (jsTrim args) ≠ "max")
    (ho : jsToLower (jsTrim args) ≠ "off")
    (hd : jsToLower (jsTrim args) ≠ "disabled")
    (hnan : parseInt10 (jsToLower (jsTrim args)) = none) :
    (thinkAction config args).1.messageType = MessageType.error ∧
    (thinkAction config args).2 = config ∧
    (budgetAction config args).1.messageType = MessageType.error ∧
    (budgetAction config args).2 = config := by
  unfold thinkAction thinkDispatch thinkRest budgetAction budgetDispatch
  rw [hnan]
  refine ⟨?_, ?_, ?_, ?_⟩ <;>
    (simp only [if_neg hne, if_neg (not_or.mpr ⟨hu, hm⟩),
      if_neg (not_or.mpr ⟨ho, hd⟩)] <;> rfl)

theorem unparseable_error_no_mutation_witness :
    (thinkAction (some (Config.mk (SessionThinkingState.mk (some 5)))) "hello").1.messageType =
      MessageType.error ∧
    (thinkAction (some (Config.mk (SessionThinkingState.mk (some 5)))) "hello").2 =
      some (Config.mk (SessionThinkingState.mk (some 5))) ∧
    (budgetAction (some (Config.mk (SessionThinkingState.mk (some 5)))) "hello").1.messageType =
      MessageType.error ∧
    (budgetAction (some (Config.mk (SessionThinkingState.mk (some 5)))) "hello").2 =
      some (Config.mk (SessionThinkingState.mk (some 5))) :=
  unparseable_error_no_mutation (some (Config.mk (SessionThinkingState.mk (some 5)))) "hello"
    (by decide) (by decide) (by decide) (by decide) (by decide) (by decide)

/-- C4: For every starting state of the session budget cell, invoking `/think`
with an empty argument toggles: if the current budget is absent or strictly
greater than 0 it is set to 0 with the disabled message; otherwise (current
`≤ 0`, i.e. `0` or `-1` under the invariant) it is set to the medium default
with the enabled message. -/
theorem think_toggle_spec (c : Config) :
    ((c.getSessionThinkingBudget = none ∨
        (∃ b, c.getSessionThinkingBudget = some b ∧ 0 < b)) →
      thinkAction (some c) "" =
        (createMessage .info "Extended Thinking disabled",
         some (c.setSessionThinkingBudget (some THINKING_BUDGET_OFF)))) ∧
    (∀ b, c.getSessionThinkingBudget = some b → b ≤ 0 →
      thinkAction (some c) "" =
        (createMessage .info ("Extended Thinking enabled (MEDIUM: " ++
            jsIntToString DEFAULT_THINKING_MODE ++ " tokens)"),
         some (c.setSessionThinkingBudget (some DEFAULT_THINKING_MODE)))) := by
  constructor
  · intro h
    show thinkToggle (some c) = _
    exact thinkToggle_off (some c) h
  · intro b hb hnp
    show thinkToggle (some c) = _
    exact thinkToggle_on (some c) b hb hnp

theorem think_toggle_spec_witness :
    (thinkAction (some (Config.mk (SessionThinkingState.mk (some 5)))) "" =
      (createMessage .info "Extended Thinking disabled",
       some ((Config.mk (SessionThinkingState.mk (some 5))).setSessionThinkingBudget
         (some THINKING_BUDGET_OFF)))) ∧
    (thinkAction (some (Config.mk (SessionThinkingState.mk (some 0)))) "" =
      (createMessage .info ("Extended Thinking enabled (MEDIUM: " ++
          jsIntToString DEFAULT_THINKING_MODE ++ " tokens)"),
       some ((Config.mk (SessionThinkingState.mk (some 0))).setSessionThinkingBudget
         (some DEFAULT_THINKING_MODE)))) :=
  ⟨(think_toggle_spec (Config.mk (SessionThinkingState.mk (some 5)))).1
      (Or.inr ⟨5, rfl, by decide⟩),
   (think_toggle_spec (Config.mk (SessionThinkingState.mk (some 0)))).2 0 rfl (by decide)⟩

/-- C5 counterexample: invoking `/think` with no arguments when the session
budget is absent sets the stored value to 0, not to the medium default — the
claim as stated is false on the code. -/
theorem think_noargs_absent_counterexample :
    getBudgetViaConfig
        (thinkAction (some (Config.mk (SessionThinkingState.mk none))) "").2 =
      some THINKING_BUDGET_OFF ∧
    THINKING_BUDGET_OFF ≠ DEFAULT_THINKING_MODE := by
  decide

/-- C5 (amended): invoking `/think` with no arguments when the session budget
is absent (no override set) sets the stored value to 0 — the absent state is
treated as "currently on" and toggled off, not set to the medium default. -/
theorem think_noargs_absent_sets_off (c : Config)
    (h : c.getSessionThinkingBudget = none) :
    thinkAction (some c) "" =
      (createMessage .info "Extended Thinking disabled",
       some (c.setSessionThinkingBudget (some THINKING_BUDGET_OFF))) := by
  show thinkToggle (some c) = _
  exact thinkToggle_off (some c) (Or.inl h)

theorem think_noargs_absent_sets_off_witness :
    thinkAction (some (Config.mk (SessionThinkingState.mk none))) "" =
      (createMessage .info "Extended Thinking disabled",
       some ((Config.mk (SessionThinkingState.mk none)).setSessionThinkingBudget
         (some THINKING_BUDGET_OFF))) :=
  think_noargs_absent_sets_off (Config.mk (SessionThinkingState.mk none)) rfl

/-- C6: starting from an absent override, after any finite sequence of
`/think` and `/budget` invocations with arbitrary argument strings, the stored
session budget, whenever present, is `-1`, `0`, or a positive integer at most
`32768`; the `SessionThinkingState` cell itself performs no validation
(`setOverride` stores any value verbatim). -/
theorem session_budget_invariant (l : List Invocation) (b : Int)
    (s : SessionThinkingState) (v : Option Int)
    (h : getBudgetViaConfig
        (runSession (some (Config.mk (SessionThinkingState.mk none))) l) = some b) :
    validBudget b ∧ (s.setOverride v).getActiveOverride = v := by
  refine ⟨?_, rfl⟩
  refine runSession_preserves l _ ?_ b h
  intro b' hb'
  exact Option.noConfusion (show (none : Option Int) = some b' from hb')

theorem session_budget_invariant_witness :
    validBudget 5 ∧
    ((SessionThinkingState.mk (some 3)).setOverride (some 99999)).getActiveOverride =
      some 99999 :=
  session_budget_invariant [Invocation.budgetCmd "5"] 5
    (SessionThinkingState.mk (some 3)) (some 99999) (by decide)

/-- C7: `getBudgetLabel` classifies `-1` as UNLIMITED, `0` as OFF, then LOW,
MEDIUM, HIGH by `≤` against the three thresholds, else EXTREME; a value
exactly at a threshold classifies at the lower tier and one unit above it at
the next tier. -/
theorem getBudgetLabel_spec (b : Int) :
    (b = -1 → getBudgetLabel b = "UNLIMITED") ∧
    (b = 0 → getBudgetLabel b = "OFF") ∧
    (b ≠ -1 → b ≠ 0 → b ≤ THINKING_BUDGET_LOW → getBudgetLabel b = "LOW") ∧
    (b ≠ -1 → b ≠ 0 → THINKING_BUDGET_LOW < b → b ≤ THINKING_BUDGET_MEDIUM →
      getBudgetLabel b = "MEDIUM") ∧
    (b ≠ -1 → b ≠ 0 → THINKING_BUDGET_MEDIUM < b → b ≤ THINKING_BUDGET_HIGH →
      getBudgetLabel b = "HIGH") ∧
    (b ≠ -1 → b ≠ 0 → THINKING_BUDGET_HIGH < b → getBudgetLabel b = "EXTREME") ∧
    getBudgetLabel THINKING_BUDGET_LOW = "LOW" ∧
    getBudgetLabel (THINKING_BUDGET_LOW + 1) = "MEDIUM" ∧
    getBudgetLabel THINKING_BUDGET_MEDIUM = "MEDIUM" ∧
    getBudgetLabel (THINKING_BUDGET_MEDIUM + 1) = "HIGH" ∧
    getBudgetLabel THINKING_BUDGET_HIGH = "HIGH" ∧
    getBudgetLabel (THINKING_BUDGET_HIGH + 1) = "EXTREME" := by
  refine ⟨?_, ?_, ?_, ?_, ?_, ?_, by decide, by decide, by decide, by decide,
    by decide, by decide⟩
  · intro h1
    subst h1
    decide
  · intro h1
    subst h1
    decide
  · intro h1 h2 h3
    unfold getBudgetLabel
    split_ifs <;>
      first
        | rfl
        | (exfalso
           simp only [THINKING_BUDGET_UNLIMITED, THINKING_BUDGET_OFF, THINKING_BUDGET_LOW,
             THINKING_BUDGET_MEDIUM, THINKING_BUDGET_HIGH] at *
           omega)
  · intro h1 h2 h3 h4
    unfold getBudgetLabel
    split_ifs <;>
      first
        | rfl
        | (exfalso
           simp only [THINKING_BUDGET_UNLIMITED, THINKING_BUDGET_OFF, THINKING_BUDGET_LOW,
             THINKING_BUDGET_MEDIUM, THINKING_BUDGET_HIGH] at *
           omega)
  · intro h1 h2 h3 h4
    unfold getBudgetLabel
    split_ifs <;>
      first
        | rfl
        | (exfalso
           simp only [THINKING_BUDGET_UNLIMITED, THINKING_BUDGET_OFF, THINKING_BUDGET_LOW,
             THINKING_BUDGET_MEDIUM, THINKING_BUDGET_HIGH] at *
           omega)
  · intro h1 h2 h3
    unfold getBudgetLabel
    split_ifs <;>
      first
        | rfl
        | (exfalso
           simp only [THINKING_BUDGET_UNLIMITED, THINKING_BUDGET_OFF, THINKING_BUDGET_LOW,
             THINKING_BUDGET_MEDIUM, THINKING_BUDGET_HIGH] at *
           omega)

theorem getBudgetLabel_spec_witness :
    getBudgetLabel 5 = "LOW" :=
  (getBudgetLabel_spec 5).2.2.1 (by decide) (by decide) (by decide)

/-- C8: whenever the session budget is absent, `/think status` returns an
info message whose content is the fixed literal default-description string
"Extended Thinking: Using model defaults (MEDIUM: 8192 tokens)" (hard-coded
in the source, not computed from the default constant), and does not modify
any state. -/
theorem think_status_absent_fixed_string (config : Option Config)
    (h : getBudgetViaConfig config = none) :
    thinkStatusAction config =
      (createMessage .info "Extended Thinking: Using model defaults (MEDIUM: 8192 tokens)",
       config) := by
  unfold thinkStatusAction
  rw [h]

theorem think_status_absent_fixed_string_witness :
    thinkStatusAction (some (Config.mk (SessionThinkingState.mk none))) =
      (createMessage .info "Extended Thinking: Using model defaults (MEDIUM: 8192 tokens)",
       some (Config.mk (SessionThinkingState.mk none))) :=
  think_status_absent_fixed_string (some (Config.mk (SessionThinkingState.mk none))) rfl

/-- C9: for every argument string, with the configuration collaborator absent
each command invocation still completes with a message, budget writes silently
no-op (the configuration stays absent), and the absence of the collaborator
never by itself produces an error-typed message: both commands return a
message of the same type as they would with any present collaborator. -/
theorem missing_config_silent_noop (args : String) (config : Option Config) :
    (thinkAction none args).2 = none ∧
    (budgetAction none args).2 = none ∧
    (thinkStatusAction none).2 = none ∧
    (thinkStatusAction none).1.messageType = MessageType.info ∧
    (thinkAction none args).1.messageType = (thinkAction config args).1.messageType ∧
    (budgetAction none args).1.messageType = (budgetAction config args).1.messageType := by
  refine ⟨?_, ?_, rfl, rfl, thinkAction_msgType_eq none config args,
    budgetAction_msgType_eq none config args⟩
  · rcases thinkAction_writes none args with h | ⟨v, _, _, h⟩ <;> exact h
  · rcases budgetAction_writes none args with h | ⟨v, _, _, h⟩ <;> exact h

/-- C10: the `/think` default action treats an argument as numeric only when
the trimmed, lower-cased argument is exactly the canonical decimal string of
its parsed integer; every input that parses but is not in canonical form
(e.g. "007", "+5", "5.0") gets the usage error and leaves the budget
unchanged. -/
theorem think_canonical_numeric_only (config : Option Config) (args : String)
    (n : Int)
    (hp : parseInt10 (jsToLower (jsTrim args)) = some n)
    (hnc : jsToLower (jsTrim args) ≠ jsIntToString n) :
    thinkAction config args = (thinkUsageMsg, config) := by
  have hne : jsToLower (jsTrim args) ≠ "" := by
    intro h
    rw [h] at hp
    exact Option.noConfusion (show (none : Option Int) = some n from hp)
  unfold thinkAction thinkDispatch thinkRest
  rw [hp]
  simp only [if_neg hnc, if_neg hne]

theorem think_canonical_numeric_only_witness :
    thinkAction (some (Config.mk (SessionThinkingState.mk (some 5)))) "007" =
      (thinkUsageMsg, some (Config.mk (SessionThinkingState.mk (some 5)))) :=
  think_canonical_numeric_only (some (Config.mk (SessionThinkingState.mk (some 5))))
    "007" 7 (by decide) (by decide)

end GeminiCLI
